import Mathlib

/-!
Shallow embedding of the tx-engine payment engine (src/engine.rs,
src/account.rs, src/transaction.rs, src/error.rs).

Amounts (`f64` in the source) are modelled as exact rationals `ℚ`, the
"exact decimal arithmetic" reading the specification uses for its balance
invariants.  Client ids (`u16`) and transaction ids (`u32`) are modelled as
`Nat`; no claim depends on their bit width.  The two `HashMap`s of
`Engine` are modelled as functions `Nat → Option _`; `HashMap::insert`
becomes a pointwise functional update and `entry(..).or_insert_with(..)`
becomes `Engine.entryOrInsert`.  `Result<(), TransactionError>` becomes
`TxResult`.  Each `process_*` method takes the engine state and returns
the result paired with the successor state.
-/

namespace TxEngine

/-- Transaction type tag (src/transaction.rs, `enum Type`). -/
inductive TxType where
  | Deposit
  | Withdrawal
  | Dispute
  | Resolve
  | Chargeback
deriving DecidableEq, Repr

/-- A transaction record (src/transaction.rs, `struct Transaction`).
`disputed` is carried on the record itself and is the only field the
engine ever mutates on a stored record. -/
structure Transaction where
  t_type : TxType
  client : Nat
  tx : Nat
  amount : Option ℚ
  disputed : Bool
deriving DecidableEq, Repr

/-- A client account (src/account.rs, `struct Account`). -/
structure Account where
  client : Nat
  available : ℚ
  held : ℚ
  total : ℚ
  locked : Bool
deriving DecidableEq, Repr

/-- The account produced by `Account { client, ..Default::default() }`:
all balances zero, unlocked. -/
def Account.fresh (c : Nat) : Account :=
  { client := c, available := 0, held := 0, total := 0, locked := false }

/-- Typed processing errors (src/error.rs, `enum Transaction`, plus the
`AccountNotFound` variant that src/engine.rs references in its
account-lookup fallbacks and that the spec lists in §7). -/
inductive TxError where
  | NotFound (tx : Nat) (client : Nat)
  | InsufficientFunds (client : Nat)
  | AccountLocked (client : Nat)
  | InvalidAmount (tx : Nat)
  | AlreadyDisputed (tx : Nat)
  | NotUnderDispute (tx : Nat)
  | InvalidDispute (tx : Nat)
  | InvalidChargeback (tx : Nat)
  | AccountNotFound (client : Nat)
deriving DecidableEq, Repr

/-- `Result<(), TransactionError>`. -/
inductive TxResult where
  | ok
  | err (e : TxError)
deriving DecidableEq, Repr

/-- Pointwise update of a map, modelling `HashMap::insert`. -/
def upd {α : Type} (m : Nat → Option α) (k : Nat) (v : α) : Nat → Option α :=
  fun k' => if k' = k then some v else m k'

/-- The engine's state (src/engine.rs, `struct Engine`): client id →
account, transaction id → stored record. -/
structure Engine where
  accounts : Nat → Option Account
  transactions : Nat → Option Transaction

/-- `Engine::new()`: both maps empty. -/
def Engine.empty : Engine :=
  { accounts := fun _ => none, transactions := fun _ => none }

/-- `self.accounts.entry(client_id).or_insert_with(..)` (engine.rs lines
25-28): return the existing account, or insert and return a fresh one. -/
def Engine.entryOrInsert (s : Engine) (c : Nat) : Account × Engine :=
  match s.accounts c with
  | some a => (a, s)
  | none => (Account.fresh c, { s with accounts := upd s.accounts c (Account.fresh c) })

/-- `Engine::process_deposit` (engine.rs lines 43-57).  Note the source's
absent-account fallback prints a warning and returns `Ok(())` without
recording anything. -/
def processDeposit (s : Engine) (t : Transaction) : TxResult × Engine :=
  match s.accounts t.client with
  | some account =>
    match t.amount with
    | some amount =>
      (TxResult.ok,
        { accounts := upd s.accounts t.client
            { account with available := account.available + amount,
                           total := account.total + amount },
          transactions := upd s.transactions t.tx t })
    | none => (TxResult.err (TxError.InvalidAmount t.tx), s)
  | none => (TxResult.ok, s)

/-- `Engine::process_withdrawal` (engine.rs lines 59-76). -/
def processWithdrawal (s : Engine) (t : Transaction) : TxResult × Engine :=
  match s.accounts t.client with
  | some account =>
    match t.amount with
    | some amount =>
      if amount ≤ account.available then
        (TxResult.ok,
          { accounts := upd s.accounts t.client
              { account with available := account.available - amount,
                             total := account.total - amount },
            transactions := upd s.transactions t.tx t })
      else (TxResult.err (TxError.InsufficientFunds account.client), s)
    | none => (TxResult.err (TxError.InvalidAmount t.tx), s)
  | none => (TxResult.err (TxError.AccountNotFound t.client), s)

/-- `Engine::process_dispute` (engine.rs lines 78-103).  The combined
guard `!original_tx.disputed && original_tx.client == account.client`
falls through to `AlreadyDisputed` when either conjunct fails. -/
def processDispute (s : Engine) (t : Transaction) : TxResult × Engine :=
  match s.accounts t.client with
  | some account =>
    match s.transactions t.tx with
    | some origTx =>
      if origTx.disputed = false ∧ origTx.client = account.client then
        match origTx.amount with
        | some amount =>
          match origTx.t_type with
          | TxType.Deposit =>
            (TxResult.ok,
              { accounts := upd s.accounts t.client
                  { account with available := account.available - amount,
                                 held := account.held + amount },
                transactions := upd s.transactions t.tx { origTx with disputed := true } })
          | _ => (TxResult.err (TxError.InvalidDispute t.tx), s)
        | none => (TxResult.err (TxError.InvalidAmount t.tx), s)
      else (TxResult.err (TxError.AlreadyDisputed t.tx), s)
    | none => (TxResult.err (TxError.NotFound t.tx account.client), s)
  | none => (TxResult.err (TxError.AccountNotFound t.client), s)

/-- `Engine::process_resolve` (engine.rs lines 105-126).  The guard
requires `original_tx.disputed && original_tx.client == account.client`;
its failure is reported as `NotUnderDispute`. -/
def processResolve (s : Engine) (t : Transaction) : TxResult × Engine :=
  match s.accounts t.client with
  | some account =>
    match s.transactions t.tx with
    | some origTx =>
      if origTx.disputed = true ∧ origTx.client = account.client then
        match origTx.amount with
        | some amount =>
          (TxResult.ok,
            { accounts := upd s.accounts t.client
                { account with available := account.available + amount,
                               held := account.held - amount },
              transactions := upd s.transactions t.tx { origTx with disputed := false } })
        | none => (TxResult.err (TxError.InvalidAmount t.tx), s)
      else (TxResult.err (TxError.NotUnderDispute t.tx), s)
    | none => (TxResult.err (TxError.NotFound t.tx account.client), s)
  | none => (TxResult.err (TxError.AccountNotFound t.client), s)

/-- `Engine::process_chargeback` (engine.rs lines 128-156).  Unlike
resolve, the client guard compares against `transaction.client` and the
type guard (`InvalidChargeback`) precedes the amount check. -/
def processChargeback (s : Engine) (t : Transaction) : TxResult × Engine :=
  match s.accounts t.client with
  | some account =>
    match s.transactions t.tx with
    | some origTx =>
      if origTx.disputed = true ∧ origTx.client = t.client then
        match origTx.t_type with
        | TxType.Deposit =>
          match origTx.amount with
          | some amount =>
            (TxResult.ok,
              { accounts := upd s.accounts t.client
                  { account with held := account.held - amount,
                                 total := account.total - amount,
                                 locked := true },
                transactions := upd s.transactions t.tx { origTx with disputed := false } })
          | none => (TxResult.err (TxError.InvalidAmount t.tx), s)
        | _ => (TxResult.err (TxError.InvalidChargeback t.tx), s)
      else (TxResult.err (TxError.NotUnderDispute t.tx), s)
    | none => (TxResult.err (TxError.NotFound t.tx t.client), s)
  | none => (TxResult.err (TxError.AccountNotFound t.client), s)

/-- `Engine::process_transaction` (engine.rs lines 20-41): resolve or
create the account, reject if locked, then dispatch by type. -/
def processTransaction (s : Engine) (t : Transaction) : TxResult × Engine :=
  let p := s.entryOrInsert t.client
  if p.1.locked then
    (TxResult.err (TxError.AccountLocked t.client), p.2)
  else
    match t.t_type with
    | TxType.Deposit => processDeposit p.2 t
    | TxType.Withdrawal => processWithdrawal p.2 t
    | TxType.Dispute => processDispute p.2 t
    | TxType.Resolve => processResolve p.2 t
    | TxType.Chargeback => processChargeback p.2 t

/-- Feed a list of transactions to the engine in order, keeping only the
final state (the caller in src/main.rs logs each result and continues). -/
def processAll (s : Engine) (ts : List Transaction) : Engine :=
  ts.foldl (fun s' t => (processTransaction s' t).2) s

/-- Convenience constructor for input records: parsed records always
arrive with `disputed = false` (serde `skip`). -/
def mkTx (ty : TxType) (c : Nat) (x : Nat) (a : Option ℚ) : Transaction :=
  { t_type := ty, client := c, tx := x, amount := a, disputed := false }

/-! ## Basic lemmas about the map update and account provisioning -/

theorem upd_self {α : Type} (m : Nat → Option α) (k : Nat) (v : α) :
    upd m k v k = some v := by
  simp [upd]

theorem upd_ne {α : Type} (m : Nat → Option α) (k : Nat) (v : α) (k' : Nat)
    (h : k' ≠ k) : upd m k v k' = m k' := by
  simp [upd, h]

theorem entryOrInsert_of_some (s : Engine) (c : Nat) (a : Account)
    (h : s.accounts c = some a) : s.entryOrInsert c = (a, s) := by
  simp [Engine.entryOrInsert, h]

theorem entryOrInsert_of_none (s : Engine) (c : Nat) (h : s.accounts c = none) :
    s.entryOrInsert c
      = (Account.fresh c, { s with accounts := upd s.accounts c (Account.fresh c) }) := by
  simp [Engine.entryOrInsert, h]

theorem entryOrInsert_transactions (s : Engine) (c : Nat) :
    ((s.entryOrInsert c).2).transactions = s.transactions := by
  rcases h : s.accounts c with _ | a
  · simp [entryOrInsert_of_none s c h]
  · simp [entryOrInsert_of_some s c a h]

theorem entryOrInsert_accounts_preserved (s : Engine) (c k : Nat) (a : Account)
    (h : s.accounts k = some a) : ((s.entryOrInsert c).2).accounts k = some a := by
  rcases hc : s.accounts c with _ | b
  · simp only [entryOrInsert_of_none s c hc]
    by_cases hk : k = c
    · subst hk; rw [h] at hc; exact absurd hc (by simp)
    · simpa [upd, hk] using h
  · simp [entryOrInsert_of_some s c b hc, h]

theorem entryOrInsert_accounts_ne (s : Engine) (c k : Nat) (h : k ≠ c) :
    ((s.entryOrInsert c).2).accounts k = s.accounts k := by
  rcases hc : s.accounts c with _ | b
  · simp [entryOrInsert_of_none s c hc, upd, h]
  · simp [entryOrInsert_of_some s c b hc]

theorem entryOrInsert_accounts_fresh (s : Engine) (c : Nat)
    (h : s.accounts c = none) :
    ((s.entryOrInsert c).2).accounts c = some (Account.fresh c) := by
  simp [entryOrInsert_of_none s c h, upd]

/-! ## Every `process_*` branch that returns an error leaves its input
state untouched (validation precedes mutation in every branch). -/

theorem processDeposit_err_state (s : Engine) (t : Transaction) (e : TxError)
    (h : (processDeposit s t).1 = TxResult.err e) : (processDeposit s t).2 = s := by
  unfold processDeposit at h ⊢
  rcases hs : s.accounts t.client with _ | account <;> simp [hs] at h ⊢
  rcases ha : t.amount with _ | amount <;> simp [ha] at h ⊢

theorem processWithdrawal_err_state (s : Engine) (t : Transaction) (e : TxError)
    (h : (processWithdrawal s t).1 = TxResult.err e) : (processWithdrawal s t).2 = s := by
  unfold processWithdrawal at h ⊢
  rcases hs : s.accounts t.client with _ | account <;> simp [hs] at h ⊢
  rcases ha : t.amount with _ | amount <;> simp [ha] at h ⊢
  by_cases hle : amount ≤ account.available <;> simp [hle] at h ⊢

theorem processDispute_err_state (s : Engine) (t : Transaction) (e : TxError)
    (h : (processDispute s t).1 = TxResult.err e) : (processDispute s t).2 = s := by
  unfold processDispute at h ⊢
  rcases hs : s.accounts t.client with _ | account <;> simp [hs] at h ⊢
  rcases hx : s.transactions t.tx with _ | origTx <;> simp [hx] at h ⊢
  by_cases hg : origTx.disputed = false ∧ origTx.client = account.client <;>
    simp [hg] at h ⊢
  rcases ha : origTx.amount with _ | amount <;> simp [ha] at h ⊢
  rcases hty : origTx.t_type <;> simp [hty] at h ⊢

theorem processResolve_err_state (s : Engine) (t : Transaction) (e : TxError)
    (h : (processResolve s t).1 = TxResult.err e) : (processResolve s t).2 = s := by
  unfold processResolve at h ⊢
  rcases hs : s.accounts t.client with _ | account <;> simp [hs] at h ⊢
  rcases hx : s.transactions t.tx with _ | origTx <;> simp [hx] at h ⊢
  by_cases hg : origTx.disputed = true ∧ origTx.client = account.client <;>
    simp [hg] at h ⊢
  rcases ha : origTx.amount with _ | amount <;> simp [ha] at h ⊢

theorem processChargeback_err_state (s : Engine) (t : Transaction) (e : TxError)
    (h : (processChargeback s t).1 = TxResult.err e) : (processChargeback s t).2 = s := by
  unfold processChargeback at h ⊢
  rcases hs : s.accounts t.client with _ | account <;> simp [hs] at h ⊢
  rcases hx : s.transactions t.tx with _ | origTx <;> simp [hx] at h ⊢
  by_cases hg : origTx.disputed = true ∧ origTx.client = t.client <;>
    simp [hg] at h ⊢
  rcases hty : origTx.t_type <;> simp [hty] at h ⊢
  rcases ha : origTx.amount with _ | amount <;> simp [ha] at h ⊢

theorem processTransaction_err_state (s : Engine) (t : Transaction) (e : TxError)
    (h : (processTransaction s t).1 = TxResult.err e) :
    (processTransaction s t).2 = (s.entryOrInsert t.client).2 := by
  unfold processTransaction at h ⊢
  by_cases hl : (s.entryOrInsert t.client).1.locked <;> simp [hl] at h ⊢
  rcases hty : t.t_type <;> simp [hty] at h ⊢
  · exact processDeposit_err_state _ _ _ h
  · exact processWithdrawal_err_state _ _ _ h
  · exact processDispute_err_state _ _ _ h
  · exact processResolve_err_state _ _ _ h
  · exact processChargeback_err_state _ _ _ h

/-! ## A transaction only ever touches the account stored under its own
client id: every account-map write in engine.rs goes through the entry
for `transaction.client`. -/

theorem processDeposit_accounts_ne (s : Engine) (t : Transaction) (k : Nat)
    (hk : k ≠ t.client) : ((processDeposit s t).2).accounts k = s.accounts k := by
  unfold processDeposit
  rcases hs : s.accounts t.client with _ | account <;> simp [hs]
  rcases ha : t.amount with _ | amount <;> simp [ha, upd, hk]

theorem processWithdrawal_accounts_ne (s : Engine) (t : Transaction) (k : Nat)
    (hk : k ≠ t.client) : ((processWithdrawal s t).2).accounts k = s.accounts k := by
  unfold processWithdrawal
  rcases hs : s.accounts t.client with _ | account <;> simp [hs]
  rcases ha : t.amount with _ | amount <;> simp [ha, upd, hk]
  by_cases hle : amount ≤ account.available <;> simp [hle, upd, hk]

theorem processDispute_accounts_ne (s : Engine) (t : Transaction) (k : Nat)
    (hk : k ≠ t.client) : ((processDispute s t).2).accounts k = s.accounts k := by
  unfold processDispute
  rcases hs : s.accounts t.client with _ | account <;> simp [hs]
  rcases hx : s.transactions t.tx with _ | origTx <;> simp [hx]
  by_cases hg : origTx.disputed = false ∧ origTx.client = account.client <;> simp [hg]
  rcases ha : origTx.amount with _ | amount <;> simp [ha]
  rcases hty : origTx.t_type <;> simp [upd, hk]

theorem processResolve_accounts_ne (s : Engine) (t : Transaction) (k : Nat)
    (hk : k ≠ t.client) : ((processResolve s t).2).accounts k = s.accounts k := by
  unfold processResolve
  rcases hs : s.accounts t.client with _ | account <;> simp [hs]
  rcases hx : s.transactions t.tx with _ | origTx <;> simp [hx]
  by_cases hg : origTx.disputed = true ∧ origTx.client = account.client <;> simp [hg]
  rcases ha : origTx.amount with _ | amount <;> simp [ha, upd, hk]

theorem processChargeback_accounts_ne (s : Engine) (t : Transaction) (k : Nat)
    (hk : k ≠ t.client) : ((processChargeback s t).2).accounts k = s.accounts k := by
  unfold processChargeback
  rcases hs : s.accounts t.client with _ | account <;> simp [hs]
  rcases hx : s.transactions t.tx with _ | origTx <;> simp [hx]
  by_cases hg : origTx.disputed = true ∧ origTx.client = t.client <;> simp [hg]
  rcases hty : origTx.t_type <;> simp
  rcases ha : origTx.amount with _ | amount <;> simp [ha, upd, hk]

theorem processTransaction_accounts_ne (s : Engine) (t : Transaction) (k : Nat)
    (hk : k ≠ t.client) :
    ((processTransaction s t).2).accounts k = s.accounts k := by
  unfold processTransaction
  have hbase := entryOrInsert_accounts_ne s t.client k hk
  by_cases hl : (s.entryOrInsert t.client).1.locked <;> simp [hl]
  · exact hbase
  · rcases hty : t.t_type <;> simp
    · rw [processDeposit_accounts_ne _ _ _ hk, hbase]
    · rw [processWithdrawal_accounts_ne _ _ _ hk, hbase]
    · rw [processDispute_accounts_ne _ _ _ hk, hbase]
    · rw [processResolve_accounts_ne _ _ _ hk, hbase]
    · rw [processChargeback_accounts_ne _ _ _ hk, hbase]

/-! ## Locked accounts freeze: the lock check precedes all dispatch. -/

theorem processTransaction_locked (s : Engine) (t : Transaction) (a : Account)
    (hacc : s.accounts t.client = some a) (hl : a.locked = true) :
    processTransaction s t = (TxResult.err (TxError.AccountLocked t.client), s) := by
  unfold processTransaction
  rw [entryOrInsert_of_some s t.client a hacc]
  simp [hl]

theorem processTransaction_preserves_locked (s : Engine) (c : Nat) (a : Account)
    (hacc : s.accounts c = some a) (hl : a.locked = true) (t : Transaction) :
    ((processTransaction s t).2).accounts c = some a := by
  by_cases hc : t.client = c
  · subst hc
    rw [processTransaction_locked s t a hacc hl]
    exact hacc
  · rw [processTransaction_accounts_ne s t c (fun h => hc h.symm)]
    exact hacc

theorem processAll_preserves_locked (s : Engine) (c : Nat) (a : Account)
    (hacc : s.accounts c = some a) (hl : a.locked = true) (ts : List Transaction) :
    (processAll s ts).accounts c = some a := by
  induction ts generalizing s with
  | nil => exact hacc
  | cons t ts ih =>
    exact ih _ (processTransaction_preserves_locked s c a hacc hl t)

/-! ## The balance invariant `total = available + held`. -/

/-- Every account in the state satisfies `total = available + held`. -/
def BalancedAll (s : Engine) : Prop :=
  ∀ c a, s.accounts c = some a → a.total = a.available + a.held

theorem balancedAll_entryOrInsert (s : Engine) (c : Nat) (h : BalancedAll s) :
    BalancedAll ((s.entryOrInsert c).2) := by
  rcases hc : s.accounts c with _ | b
  · simp only [entryOrInsert_of_none s c hc]
    intro k a hk
    by_cases hkc : k = c
    · simp [upd, hkc] at hk
      rw [← hk]
      simp [Account.fresh]
    · simp [upd, hkc] at hk
      exact h k a hk
  · simp only [entryOrInsert_of_some s c b hc]
    exact h

theorem balancedAll_processDeposit (s : Engine) (t : Transaction)
    (h : BalancedAll s) : BalancedAll (processDeposit s t).2 := by
  unfold processDeposit
  rcases hs : s.accounts t.client with _ | account <;> simp [hs]
  · exact h
  rcases ha : t.amount with _ | amount <;> simp [ha]
  · exact h
  · intro k b hb
    by_cases hk : k = t.client
    · simp [upd, hk] at hb
      rw [← hb]
      have hbal := h t.client account hs
      simp only []
      rw [hbal]
      ring
    · simp [upd, hk] at hb
      exact h k b hb

theorem balancedAll_processWithdrawal (s : Engine) (t : Transaction)
    (h : BalancedAll s) : BalancedAll (processWithdrawal s t).2 := by
  unfold processWithdrawal
  rcases hs : s.accounts t.client with _ | account <;> simp [hs]
  · exact h
  rcases ha : t.amount with _ | amount <;> simp [ha]
  · exact h
  by_cases hle : amount ≤ account.available <;> simp [hle]
  · intro k b hb
    by_cases hk : k = t.client
    · simp [upd, hk] at hb
      rw [← hb]
      have hbal := h t.client account hs
      simp only []
      rw [hbal]
      ring
    · simp [upd, hk] at hb
      exact h k b hb
  · exact h

theorem balancedAll_processDispute (s : Engine) (t : Transaction)
    (h : BalancedAll s) : BalancedAll (processDispute s t).2 := by
  unfold processDispute
  rcases hs : s.accounts t.client with _ | account <;> simp [hs]
  · exact h
  rcases hx : s.transactions t.tx with _ | origTx <;> simp [hx]
  · exact h
  by_cases hg : origTx.disputed = false ∧ origTx.client = account.client <;> simp [hg]
  · rcases ha : origTx.amount with _ | amount <;> simp [ha]
    · exact h
    rcases hty : origTx.t_type <;> simp
    · intro k b hb
      by_cases hk : k = t.client
      · simp [upd, hk] at hb
        rw [← hb]
        have hbal := h t.client account hs
        simp only []
        rw [hbal]
        ring
      · simp [upd, hk] at hb
        exact h k b hb
    all_goals exact h
  · exact h

theorem balancedAll_processResolve (s : Engine) (t : Transaction)
    (h : BalancedAll s) : BalancedAll (processResolve s t).2 := by
  unfold processResolve
  rcases hs : s.accounts t.client with _ | account <;> simp [hs]
  · exact h
  rcases hx : s.transactions t.tx with _ | origTx <;> simp [hx]
  · exact h
  by_cases hg : origTx.disputed = true ∧ origTx.client = account.client <;> simp [hg]
  · rcases ha : origTx.amount with _ | amount <;> simp [ha]
    · exact h
    intro k b hb
    by_cases hk : k = t.client
    · simp [upd, hk] at hb
      rw [← hb]
      have hbal := h t.client account hs
      simp only []
      rw [hbal]
      ring
    · simp [upd, hk] at hb
      exact h k b hb
  · exact h

theorem balancedAll_processChargeback (s : Engine) (t : Transaction)
    (h : BalancedAll s) : BalancedAll (processChargeback s t).2 := by
  unfold processChargeback
  rcases hs : s.accounts t.client with _ | account <;> simp [hs]
  · exact h
  rcases hx : s.transactions t.tx with _ | origTx <;> simp [hx]
  · exact h
  by_cases hg : origTx.disputed = true ∧ origTx.client = t.client <;> simp [hg]
  · rcases hty : origTx.t_type <;> simp
    · rcases ha : origTx.amount with _ | amount <;> simp [ha]
      · exact h
      intro k b hb
      by_cases hk : k = t.client
      · simp [upd, hk] at hb
        rw [← hb]
        have hbal := h t.client account hs
        simp only []
        rw [hbal]
        ring
      · simp [upd, hk] at hb
        exact h k b hb
    all_goals exact h
  · exact h

theorem balancedAll_processTransaction (s : Engine) (t : Transaction)
    (h : BalancedAll s) : BalancedAll (processTransaction s t).2 := by
  unfold processTransaction
  have hbase := balancedAll_entryOrInsert s t.client h
  by_cases hl : (s.entryOrInsert t.client).1.locked <;> simp [hl]
  · exact hbase
  · rcases hty : t.t_type <;> simp
    · exact balancedAll_processDeposit _ _ hbase
    · exact balancedAll_processWithdrawal _ _ hbase
    · exact balancedAll_processDispute _ _ hbase
    · exact balancedAll_processResolve _ _ hbase
    · exact balancedAll_processChargeback _ _ hbase

theorem balancedAll_processAll (s : Engine) (ts : List Transaction)
    (h : BalancedAll s) : BalancedAll (processAll s ts) := by
  induction ts generalizing s with
  | nil => exact h
  | cons t ts ih => exact ih _ (balancedAll_processTransaction s t h)

theorem balancedAll_empty : BalancedAll Engine.empty := by
  intro c a ha
  simp [Engine.empty] at ha

/-! ## Claim C1 -/

/-- Claim C1, as stated, is false: `process_transaction` runs
`accounts.entry(client).or_insert_with(..)` before any check, so a failing
withdrawal for the previously unknown client 1 returns an error yet adds a
fresh zero-balance account for client 1 to the account map. -/
theorem c1_counterexample :
    (processTransaction Engine.empty (mkTx TxType.Withdrawal 1 1 (some 5))).1
      = TxResult.err (TxError.InsufficientFunds 1)
    ∧ Engine.empty.accounts 1 = none
    ∧ ((processTransaction Engine.empty (mkTx TxType.Withdrawal 1 1 (some 5))).2).accounts 1
      = some (Account.fresh 1) :=
  ⟨rfl, rfl, rfl⟩

/-- Claim C1, amended: when `process_transaction` returns an error the
transaction map is exactly as before, every account that existed before is
unchanged, accounts of other clients are untouched, and the only possible
change is the creation of a fresh zero-balance unlocked account for the
transaction's client when none existed. -/
theorem c1_error_leaves_ledger (s : Engine) (t : Transaction) (e : TxError)
    (h : (processTransaction s t).1 = TxResult.err e) :
    ((processTransaction s t).2).transactions = s.transactions
    ∧ (∀ k a, s.accounts k = some a → ((processTransaction s t).2).accounts k = some a)
    ∧ (∀ k, k ≠ t.client → ((processTransaction s t).2).accounts k = s.accounts k)
    ∧ (s.accounts t.client = none →
        ((processTransaction s t).2).accounts t.client = some (Account.fresh t.client)) := by
  rw [processTransaction_err_state s t e h]
  exact ⟨entryOrInsert_transactions s t.client,
    fun k a ha => entryOrInsert_accounts_preserved s t.client k a ha,
    fun k hk => entryOrInsert_accounts_ne s t.client k hk,
    fun hn => entryOrInsert_accounts_fresh s t.client hn⟩

/-- Witness for `c1_error_leaves_ledger` at a concrete failing input: a
deposit with a missing amount fails with `InvalidAmount` and the ledger
keeps its (empty) transaction map, gaining only the fresh account. -/
theorem c1_error_leaves_ledger_witness :
    (processTransaction Engine.empty (mkTx TxType.Deposit 2 3 none)).1
      = TxResult.err (TxError.InvalidAmount 3)
    ∧ ((processTransaction Engine.empty (mkTx TxType.Deposit 2 3 none)).2).transactions
      = Engine.empty.transactions
    ∧ ((processTransaction Engine.empty (mkTx TxType.Deposit 2 3 none)).2).accounts 2
      = some (Account.fresh 2) :=
  ⟨rfl,
    (c1_error_leaves_ledger Engine.empty (mkTx TxType.Deposit 2 3 none)
      (TxError.InvalidAmount 3) rfl).1,
    (c1_error_leaves_ledger Engine.empty (mkTx TxType.Deposit 2 3 none)
      (TxError.InvalidAmount 3) rfl).2.2.2 rfl⟩

/-! ## Claim C2 -/

/-- Claim C2, as stated, is false: a withdrawal for the unknown client 7
fails with `InsufficientFunds`, not `AccountNotFound`, and the account IS
auto-created (the `AccountNotFound` fallback in `process_withdrawal` is
unreachable through `process_transaction`). -/
theorem c2_counterexample :
    Engine.empty.accounts 7 = none
    ∧ (processTransaction Engine.empty (mkTx TxType.Withdrawal 7 4 (some 5))).1
      = TxResult.err (TxError.InsufficientFunds 7)
    ∧ (processTransaction Engine.empty (mkTx TxType.Withdrawal 7 4 (some 5))).1
      ≠ TxResult.err (TxError.AccountNotFound 7)
    ∧ ((processTransaction Engine.empty (mkTx TxType.Withdrawal 7 4 (some 5))).2).accounts 7
      = some (Account.fresh 7) := by
  refine ⟨rfl, rfl, ?_, rfl⟩
  have h : (processTransaction Engine.empty (mkTx TxType.Withdrawal 7 4 (some 5))).1
      = TxResult.err (TxError.InsufficientFunds 7) := rfl
  rw [h]
  simp

/-- Claim C2, amended: a withdrawal of a positive amount for a client with
no account auto-creates a zero-balance unlocked account for that client
and then fails with `InsufficientFunds`; the transaction map is
unchanged. -/
theorem c2_unknown_withdrawer (s : Engine) (t : Transaction) (v : ℚ)
    (hty : t.t_type = TxType.Withdrawal) (hnone : s.accounts t.client = none)
    (hamt : t.amount = some v) (hpos : 0 < v) :
    (processTransaction s t).1 = TxResult.err (TxError.InsufficientFunds t.client)
    ∧ ((processTransaction s t).2).accounts t.client = some (Account.fresh t.client)
    ∧ ((processTransaction s t).2).transactions = s.transactions := by
  unfold processTransaction
  rw [entryOrInsert_of_none s t.client hnone]
  simp only [Account.fresh, hty]
  unfold processWithdrawal
  simp [upd, hamt, Account.fresh, not_le.mpr hpos]

/-- Witness for `c2_unknown_withdrawer` at a concrete input. -/
theorem c2_unknown_withdrawer_witness :
    Engine.empty.accounts 3 = none
    ∧ (0 : ℚ) < 2
    ∧ (processTransaction Engine.empty (mkTx TxType.Withdrawal 3 9 (some 2))).1
      = TxResult.err (TxError.InsufficientFunds 3)
    ∧ ((processTransaction Engine.empty (mkTx TxType.Withdrawal 3 9 (some 2))).2).accounts 3
      = some (Account.fresh 3) :=
  ⟨rfl, by decide,
    (c2_unknown_withdrawer Engine.empty (mkTx TxType.Withdrawal 3 9 (some 2)) 2
      rfl rfl rfl (by decide)).1,
    (c2_unknown_withdrawer Engine.empty (mkTx TxType.Withdrawal 3 9 (some 2)) 2
      rfl rfl rfl (by decide)).2.1⟩

/-! ## Claim C3 -/

/-- Claim C3, as stated, is false: a Resolve (or Chargeback) whose tx id
has no stored record fails with `NotFound`, not `NotUnderDispute` —
engine.rs lines 121 and 151 return `NotFound` from the absent-record
branch of resolve and chargeback. -/
theorem c3_counterexample :
    Engine.empty.transactions 999 = none
    ∧ (processTransaction Engine.empty (mkTx TxType.Resolve 1 999 none)).1
      = TxResult.err (TxError.NotFound 999 1)
    ∧ (processTransaction Engine.empty (mkTx TxType.Resolve 1 999 none)).1
      ≠ TxResult.err (TxError.NotUnderDispute 999)
    ∧ (processTransaction Engine.empty (mkTx TxType.Chargeback 1 888 none)).1
      = TxResult.err (TxError.NotFound 888 1) := by
  refine ⟨rfl, rfl, ?_, rfl⟩
  have h : (processTransaction Engine.empty (mkTx TxType.Resolve 1 999 none)).1
      = TxResult.err (TxError.NotFound 999 1) := rfl
  rw [h]
  simp

/-- Claim C3, amended: provided the referencing client's account, when it
exists, is unlocked and carries its own key as client id (always true for
engine-created accounts; otherwise the global lock check fires first,
returning `AccountLocked`), a Resolve or Chargeback on an absent tx id
fails with `NotFound(tx, client)` — the same error family as Dispute's
lookup — and not with `NotUnderDispute`. -/
theorem c3_absent_tx_notfound (s : Engine) (t : Transaction)
    (hty : t.t_type = TxType.Resolve ∨ t.t_type = TxType.Chargeback)
    (hmiss : s.transactions t.tx = none)
    (hacc : ∀ a, s.accounts t.client = some a → a.locked = false ∧ a.client = t.client) :
    (processTransaction s t).1 = TxResult.err (TxError.NotFound t.tx t.client)
    ∧ (processTransaction s t).1 ≠ TxResult.err (TxError.NotUnderDispute t.tx) := by
  have hmain : (processTransaction s t).1 = TxResult.err (TxError.NotFound t.tx t.client) := by
    unfold processTransaction
    rcases ha : s.accounts t.client with _ | a
    · rw [entryOrInsert_of_none s t.client ha]
      rcases hty with h | h <;> simp only [Account.fresh, h] <;> simp
      · unfold processResolve
        simp [upd, hmiss, Account.fresh]
      · unfold processChargeback
        simp [upd, hmiss]
    · obtain ⟨hl, hc⟩ := hacc a ha
      rw [entryOrInsert_of_some s t.client a ha]
      rcases hty with h | h <;> simp only [hl, h] <;> simp
      · unfold processResolve
        simp [ha, hmiss, hc]
      · unfold processChargeback
        simp [ha, hmiss]
  refine ⟨hmain, ?_⟩
  rw [hmain]
  simp

/-- Witness for `c3_absent_tx_notfound` at a concrete input. -/
theorem c3_absent_tx_notfound_witness :
    Engine.empty.transactions 999 = none
    ∧ (processTransaction Engine.empty (mkTx TxType.Resolve 1 999 none)).1
      = TxResult.err (TxError.NotFound 999 1)
    ∧ (processTransaction Engine.empty (mkTx TxType.Resolve 1 999 none)).1
      ≠ TxResult.err (TxError.NotUnderDispute 999) :=
  ⟨rfl,
    (c3_absent_tx_notfound Engine.empty (mkTx TxType.Resolve 1 999 none)
      (Or.inl rfl) rfl (fun _ h => Option.noConfusion h)).1,
    (c3_absent_tx_notfound Engine.empty (mkTx TxType.Resolve 1 999 none)
      (Or.inl rfl) rfl (fun _ h => Option.noConfusion h)).2⟩

/-! ## Claim C4 -/

/-- Claim C4: in every state reachable from the empty ledger by any
sequence of `process_transaction` calls, every account satisfies
`total = available + held` (exact arithmetic). -/
theorem c4_total_eq_available_add_held (ts : List Transaction) (c : Nat) (a : Account)
    (h : (processAll Engine.empty ts).accounts c = some a) :
    a.total = a.available + a.held :=
  balancedAll_processAll Engine.empty ts balancedAll_empty c a h

/-- Witness for `c4_total_eq_available_add_held`: after a single deposit
of 3, client 1's account is (3, 0, 3) and satisfies the invariant. -/
theorem c4_total_eq_available_add_held_witness :
    (processAll Engine.empty [mkTx TxType.Deposit 1 1 (some 3)]).accounts 1
      = some { client := 1, available := 3, held := 0, total := 3, locked := false }
    ∧ ({ client := 1, available := 3, held := 0, total := 3, locked := false } : Account).total
      = ({ client := 1, available := 3, held := 0, total := 3, locked := false } : Account).available
        + ({ client := 1, available := 3, held := 0, total := 3, locked := false } : Account).held :=
  ⟨by simp [processAll, processTransaction, processDeposit, Engine.entryOrInsert,
      Engine.empty, upd, mkTx, Account.fresh],
    c4_total_eq_available_add_held [mkTx TxType.Deposit 1 1 (some 3)] 1
      { client := 1, available := 3, held := 0, total := 3, locked := false }
      (by simp [processAll, processTransaction, processDeposit, Engine.entryOrInsert,
        Engine.empty, upd, mkTx, Account.fresh])⟩

/-! ## Claim C5 -/

/-- Claim C5: once an account is locked, it is frozen forever — after any
further transaction sequence (any clients, any types) the account is
byte-identical, and any transaction for that client is rejected with
`AccountLocked`. -/
theorem c5_locked_account_frozen (s : Engine) (c : Nat) (a : Account)
    (hacc : s.accounts c = some a) (hl : a.locked = true) :
    (∀ ts, (processAll s ts).accounts c = some a)
    ∧ ∀ ts t, t.client = c →
        (processTransaction (processAll s ts) t).1
          = TxResult.err (TxError.AccountLocked c) := by
  refine ⟨fun ts => processAll_preserves_locked s c a hacc hl ts, ?_⟩
  intro ts t htc
  have h2 := processAll_preserves_locked s c a hacc hl ts
  subst htc
  rw [processTransaction_locked (processAll s ts) t a h2 hl]

/-- A concrete ledger with a single locked account, for the C5 and C6
witnesses. -/
def lockedLedger : Engine :=
  { accounts := fun k =>
      if k = 1 then
        some { client := 1, available := 0, held := 0, total := 0, locked := true }
      else none,
    transactions := fun _ => none }

/-- Witness for `c5_locked_account_frozen`: in `lockedLedger`, client 1
stays frozen and a later deposit for client 1 is rejected. -/
theorem c5_locked_account_frozen_witness :
    lockedLedger.accounts 1
      = some { client := 1, available := 0, held := 0, total := 0, locked := true }
    ∧ (processAll lockedLedger [mkTx TxType.Deposit 2 7 (some 5)]).accounts 1
      = some { client := 1, available := 0, held := 0, total := 0, locked := true }
    ∧ (processTransaction (processAll lockedLedger [mkTx TxType.Deposit 2 7 (some 5)])
        (mkTx TxType.Deposit 1 9 (some 4))).1 = TxResult.err (TxError.AccountLocked 1) :=
  ⟨rfl,
    (c5_locked_account_frozen lockedLedger 1
      { client := 1, available := 0, held := 0, total := 0, locked := true }
      rfl rfl).1 [mkTx TxType.Deposit 2 7 (some 5)],
    (c5_locked_account_frozen lockedLedger 1
      { client := 1, available := 0, held := 0, total := 0, locked := true }
      rfl rfl).2 [mkTx TxType.Deposit 2 7 (some 5)] (mkTx TxType.Deposit 1 9 (some 4)) rfl⟩

/-- Two accounts with equal fields are equal. -/
theorem account_eq_of_fields {a b : Account} (h1 : a.client = b.client)
    (h2 : a.available = b.available) (h3 : a.held = b.held)
    (h4 : a.total = b.total) (h5 : a.locked = b.locked) : a = b := by
  cases a
  cases b
  simp_all

/-- Two transactions with equal fields are equal. -/
theorem transaction_eq_of_fields {a b : Transaction} (h1 : a.t_type = b.t_type)
    (h2 : a.client = b.client) (h3 : a.tx = b.tx)
    (h4 : a.amount = b.amount) (h5 : a.disputed = b.disputed) : a = b := by
  cases a
  cases b
  simp_all

/-! ## Claim C6 -/

/-- Claim C6: a successful chargeback of a disputed deposit of amount `v`
decreases `held` and `total` by `v`, clears the record's disputed flag and
locks the account; concretely (Scenario C), Deposit 400 / Dispute /
Chargeback leaves client 1 at (0, 0, 0, locked), and a subsequent deposit
fails with `AccountLocked` leaving the account unchanged. -/
theorem c6_chargeback_effects (s : Engine) (t : Transaction) (a : Account)
    (d : Transaction) (v : ℚ)
    (hacc : s.accounts t.client = some a) (hl : a.locked = false)
    (hty : t.t_type = TxType.Chargeback)
    (hrec : s.transactions t.tx = some d)
    (hdisp : d.disputed = true) (hcl : d.client = t.client)
    (hdep : d.t_type = TxType.Deposit) (hamt : d.amount = some v) :
    ((processTransaction s t).1 = TxResult.ok
      ∧ ((processTransaction s t).2).accounts t.client
        = some { a with held := a.held - v, total := a.total - v, locked := true }
      ∧ ((processTransaction s t).2).transactions t.tx
        = some { d with disputed := false })
    ∧ ((processAll Engine.empty
          [mkTx TxType.Deposit 1 1 (some 400), mkTx TxType.Dispute 1 1 none,
           mkTx TxType.Chargeback 1 1 none]).accounts 1
        = some { client := 1, available := 0, held := 0, total := 0, locked := true }
      ∧ (processTransaction
          (processAll Engine.empty
            [mkTx TxType.Deposit 1 1 (some 400), mkTx TxType.Dispute 1 1 none,
             mkTx TxType.Chargeback 1 1 none])
          (mkTx TxType.Deposit 1 2 (some 100))).1
        = TxResult.err (TxError.AccountLocked 1)
      ∧ ((processTransaction
          (processAll Engine.empty
            [mkTx TxType.Deposit 1 1 (some 400), mkTx TxType.Dispute 1 1 none,
             mkTx TxType.Chargeback 1 1 none])
          (mkTx TxType.Deposit 1 2 (some 100))).2).accounts 1
        = some { client := 1, available := 0, held := 0, total := 0, locked := true }) := by
  constructor
  · unfold processTransaction
    rw [entryOrInsert_of_some s t.client a hacc]
    simp only [hl, hty, Bool.false_eq_true, if_false]
    unfold processChargeback
    simp [hacc, hrec, hdisp, hcl, hdep, hamt, upd]
  · refine ⟨?_, ?_, ?_⟩ <;>
      norm_num [processAll, processTransaction, processDeposit, processWithdrawal,
        processDispute, processResolve, processChargeback, Engine.entryOrInsert,
        Engine.empty, upd, mkTx, Account.fresh]

/-- A concrete ledger with an unlocked account holding a disputed deposit,
for the C6 witness. -/
def disputedLedger : Engine :=
  { accounts := fun k =>
      if k = 1 then some { client := 1, available := 0, held := 5, total := 5, locked := false }
      else none,
    transactions := fun x =>
      if x = 4 then
        some { t_type := TxType.Deposit, client := 1, tx := 4, amount := some 5, disputed := true }
      else none }

/-- Witness for `c6_chargeback_effects` at a concrete input. -/
theorem c6_chargeback_effects_witness :
    disputedLedger.accounts 1
      = some { client := 1, available := 0, held := 5, total := 5, locked := false }
    ∧ (processTransaction disputedLedger (mkTx TxType.Chargeback 1 4 none)).1 = TxResult.ok
    ∧ ((processTransaction disputedLedger (mkTx TxType.Chargeback 1 4 none)).2).accounts 1
      = some { client := 1, available := 0, held := (5 : ℚ) - 5, total := (5 : ℚ) - 5,
               locked := true } :=
  ⟨rfl,
    (c6_chargeback_effects disputedLedger (mkTx TxType.Chargeback 1 4 none)
      { client := 1, available := 0, held := 5, total := 5, locked := false }
      { t_type := TxType.Deposit, client := 1, tx := 4, amount := some 5, disputed := true }
      5 rfl rfl rfl rfl rfl rfl rfl rfl).1.1,
    (c6_chargeback_effects disputedLedger (mkTx TxType.Chargeback 1 4 none)
      { client := 1, available := 0, held := 5, total := 5, locked := false }
      { t_type := TxType.Deposit, client := 1, tx := 4, amount := some 5, disputed := true }
      5 rfl rfl rfl rfl rfl rfl rfl rfl).1.2.1⟩

/-! ## Claim C7 -/

/-- Claim C7: for any ledger holding a recorded undisputed deposit of
amount `v` for an unlocked account, Dispute then Resolve on that tx id
both succeed and return the account and the stored record to exactly
their pre-dispute values (exact arithmetic). -/
theorem c7_dispute_resolve_roundtrip (s : Engine) (c x : Nat) (a : Account)
    (d : Transaction) (v : ℚ)
    (hacc : s.accounts c = some a) (hl : a.locked = false)
    (hrec : s.transactions x = some d) (hnd : d.disputed = false)
    (hcl : d.client = a.client) (hdep : d.t_type = TxType.Deposit)
    (hamt : d.amount = some v) :
    (processTransaction s (mkTx TxType.Dispute c x none)).1 = TxResult.ok
    ∧ (processTransaction ((processTransaction s (mkTx TxType.Dispute c x none)).2)
        (mkTx TxType.Resolve c x none)).1 = TxResult.ok
    ∧ ((processTransaction ((processTransaction s (mkTx TxType.Dispute c x none)).2)
        (mkTx TxType.Resolve c x none)).2).accounts c = some a
    ∧ ((processTransaction ((processTransaction s (mkTx TxType.Dispute c x none)).2)
        (mkTx TxType.Resolve c x none)).2).transactions x = some d := by
  have h1 : processTransaction s (mkTx TxType.Dispute c x none)
      = (TxResult.ok,
          { accounts := upd s.accounts c
              { a with available := a.available - v, held := a.held + v },
            transactions := upd s.transactions x { d with disputed := true } }) := by
    unfold processTransaction
    simp only [mkTx]
    rw [entryOrInsert_of_some s c a hacc]
    simp only [hl, Bool.false_eq_true, if_false]
    unfold processDispute
    simp [hacc, hrec, hnd, hcl, hdep, hamt, hl]
  have h2 : processTransaction
      ({ accounts := upd s.accounts c
            { a with available := a.available - v, held := a.held + v },
         transactions := upd s.transactions x { d with disputed := true } } : Engine)
      (mkTx TxType.Resolve c x none)
      = (TxResult.ok,
          { accounts := upd (upd s.accounts c
              { a with available := a.available - v, held := a.held + v }) c
              { a with available := a.available - v + v, held := a.held + v - v },
            transactions := upd (upd s.transactions x { d with disputed := true }) x
              { d with disputed := false } }) := by
    unfold processTransaction
    simp only [mkTx]
    rw [entryOrInsert_of_some _ c { a with available := a.available - v, held := a.held + v }
      (upd_self s.accounts c _)]
    simp only [hl, Bool.false_eq_true, if_false]
    unfold processResolve
    simp [upd_self, hcl, hamt]
  rw [h1]
  simp only []
  rw [h2]
  have ha2 : ({ a with available := a.available - v + v, held := a.held + v - v } : Account)
      = a :=
    account_eq_of_fields rfl (by ring) (by ring) rfl rfl
  have hd2 : ({ d with disputed := false } : Transaction) = d :=
    transaction_eq_of_fields rfl rfl rfl rfl hnd.symm
  simp [upd_self, ha2, hd2]

/-- A concrete ledger with a recorded undisputed deposit, for the C7
witness. -/
def settledLedger : Engine :=
  { accounts := fun k =>
      if k = 1 then some { client := 1, available := 6, held := 0, total := 6, locked := false }
      else none,
    transactions := fun x =>
      if x = 3 then
        some { t_type := TxType.Deposit, client := 1, tx := 3, amount := some 6, disputed := false }
      else none }

/-- Witness for `c7_dispute_resolve_roundtrip` at a concrete input. -/
theorem c7_dispute_resolve_roundtrip_witness :
    settledLedger.accounts 1
      = some { client := 1, available := 6, held := 0, total := 6, locked := false }
    ∧ (processTransaction settledLedger (mkTx TxType.Dispute 1 3 none)).1 = TxResult.ok
    ∧ (processTransaction ((processTransaction settledLedger (mkTx TxType.Dispute 1 3 none)).2)
        (mkTx TxType.Resolve 1 3 none)).1 = TxResult.ok
    ∧ ((processTransaction ((processTransaction settledLedger (mkTx TxType.Dispute 1 3 none)).2)
        (mkTx TxType.Resolve 1 3 none)).2).accounts 1
      = some { client := 1, available := 6, held := 0, total := 6, locked := false } :=
  ⟨rfl,
    (c7_dispute_resolve_roundtrip settledLedger 1 3
      { client := 1, available := 6, held := 0, total := 6, locked := false }
      { t_type := TxType.Deposit, client := 1, tx := 3, amount := some 6, disputed := false }
      6 rfl rfl rfl rfl rfl rfl rfl).1,
    (c7_dispute_resolve_roundtrip settledLedger 1 3
      { client := 1, available := 6, held := 0, total := 6, locked := false }
      { t_type := TxType.Deposit, client := 1, tx := 3, amount := some 6, disputed := false }
      6 rfl rfl rfl rfl rfl rfl rfl).2.1,
    (c7_dispute_resolve_roundtrip settledLedger 1 3
      { client := 1, available := 6, held := 0, total := 6, locked := false }
      { t_type := TxType.Deposit, client := 1, tx := 3, amount := some 6, disputed := false }
      6 rfl rfl rfl rfl rfl rfl rfl).2.2.1⟩

/-! ## Claim C8 -/

/-- Claim C8, as stated ("for every ledger state"), is false: the global
lock check precedes the dispute-target type check, so after client 1's
account is locked by a chargeback, a Dispute naming client 1's stored
withdrawal (tx 2) fails with `AccountLocked(1)`, not `InvalidDispute(2)`.
The state is reachable: deposit, withdrawal, second deposit, dispute and
chargeback of the second deposit. -/
theorem c8_counterexample :
    (processAll Engine.empty
        [mkTx TxType.Deposit 1 1 (some 500), mkTx TxType.Withdrawal 1 2 (some 200),
         mkTx TxType.Deposit 1 3 (some 100), mkTx TxType.Dispute 1 3 none,
         mkTx TxType.Chargeback 1 3 none]).transactions 2
      = some (mkTx TxType.Withdrawal 1 2 (some 200))
    ∧ (processTransaction
        (processAll Engine.empty
          [mkTx TxType.Deposit 1 1 (some 500), mkTx TxType.Withdrawal 1 2 (some 200),
           mkTx TxType.Deposit 1 3 (some 100), mkTx TxType.Dispute 1 3 none,
           mkTx TxType.Chargeback 1 3 none])
        (mkTx TxType.Dispute 1 2 none)).1
      = TxResult.err (TxError.AccountLocked 1)
    ∧ (processTransaction
        (processAll Engine.empty
          [mkTx TxType.Deposit 1 1 (some 500), mkTx TxType.Withdrawal 1 2 (some 200),
           mkTx TxType.Deposit 1 3 (some 100), mkTx TxType.Dispute 1 3 none,
           mkTx TxType.Chargeback 1 3 none])
        (mkTx TxType.Dispute 1 2 none)).1
      ≠ TxResult.err (TxError.InvalidDispute 2) := by
  refine ⟨?_, ?_, ?_⟩ <;>
    norm_num [processAll, processTransaction, processDeposit, processWithdrawal,
      processDispute, processResolve, processChargeback, Engine.entryOrInsert,
      Engine.empty, upd, mkTx, Account.fresh] <;>
    decide

/-- Claim C8, amended: provided the disputing client's account exists, is
unlocked, and the stored record under the tx id is an undisputed
withdrawal of the same client carrying an amount, the Dispute fails with
`InvalidDispute` and the whole ledger state is unchanged; Scenario E
(Deposit 500, Withdrawal 200, Dispute of the withdrawal) fails with
`InvalidDispute(2)` leaving client 1 at (300, 0, 300, unlocked). -/
theorem c8_dispute_withdrawal_rejected (s : Engine) (t : Transaction) (a : Account)
    (w : Transaction) (v : ℚ)
    (hty : t.t_type = TxType.Dispute) (hacc : s.accounts t.client = some a)
    (hl : a.locked = false) (hrec : s.transactions t.tx = some w)
    (hw : w.t_type = TxType.Withdrawal) (hnd : w.disputed = false)
    (hcl : w.client = a.client) (hamt : w.amount = some v) :
    (processTransaction s t = (TxResult.err (TxError.InvalidDispute t.tx), s))
    ∧ ((processTransaction
        (processAll Engine.empty
          [mkTx TxType.Deposit 1 1 (some 500), mkTx TxType.Withdrawal 1 2 (some 200)])
        (mkTx TxType.Dispute 1 2 none)).1
      = TxResult.err (TxError.InvalidDispute 2)
      ∧ ((processTransaction
          (processAll Engine.empty
            [mkTx TxType.Deposit 1 1 (some 500), mkTx TxType.Withdrawal 1 2 (some 200)])
          (mkTx TxType.Dispute 1 2 none)).2).accounts 1
        = some { client := 1, available := 300, held := 0, total := 300, locked := false }) := by
  constructor
  · unfold processTransaction
    rw [entryOrInsert_of_some s t.client a hacc]
    simp only [hl, hty, Bool.false_eq_true, if_false]
    unfold processDispute
    simp [hacc, hrec, hnd, hcl, hamt, hw]
  · constructor <;>
      norm_num [processAll, processTransaction, processDeposit, processWithdrawal,
        processDispute, processResolve, processChargeback, Engine.entryOrInsert,
        Engine.empty, upd, mkTx, Account.fresh]

/-- A concrete ledger with a recorded withdrawal, for the C8 witness. -/
def withdrawalLedger : Engine :=
  { accounts := fun k =>
      if k = 1 then some { client := 1, available := 3, held := 0, total := 3, locked := false }
      else none,
    transactions := fun x =>
      if x = 2 then
        some { t_type := TxType.Withdrawal, client := 1, tx := 2, amount := some 2,
               disputed := false }
      else none }

/-- Witness for `c8_dispute_withdrawal_rejected` at a concrete input. -/
theorem c8_dispute_withdrawal_rejected_witness :
    withdrawalLedger.transactions 2
      = some { t_type := TxType.Withdrawal, client := 1, tx := 2, amount := some 2,
               disputed := false }
    ∧ processTransaction withdrawalLedger (mkTx TxType.Dispute 1 2 none)
      = (TxResult.err (TxError.InvalidDispute 2), withdrawalLedger) :=
  ⟨rfl,
    (c8_dispute_withdrawal_rejected withdrawalLedger (mkTx TxType.Dispute 1 2 none)
      { client := 1, available := 3, held := 0, total := 3, locked := false }
      { t_type := TxType.Withdrawal, client := 1, tx := 2, amount := some 2, disputed := false }
      2 rfl rfl rfl rfl rfl rfl rfl rfl).1⟩

/-! ## Claim C9 -/

/-- Claim C9, as stated ("for every ledger state ... fails with
AlreadyDisputed"), is false when the referencing client's own account is
locked: after client 2 is locked by a chargeback, client 2's Dispute
naming client 1's deposit (tx 1) fails with `AccountLocked(2)`, not
`AlreadyDisputed(1)`. -/
theorem c9_counterexample :
    (processAll Engine.empty
        [mkTx TxType.Deposit 1 1 (some 400), mkTx TxType.Deposit 2 2 (some 100),
         mkTx TxType.Dispute 2 2 none, mkTx TxType.Chargeback 2 2 none]).transactions 1
      = some (mkTx TxType.Deposit 1 1 (some 400))
    ∧ (processTransaction
        (processAll Engine.empty
          [mkTx TxType.Deposit 1 1 (some 400), mkTx TxType.Deposit 2 2 (some 100),
           mkTx TxType.Dispute 2 2 none, mkTx TxType.Chargeback 2 2 none])
        (mkTx TxType.Dispute 2 1 none)).1
      = TxResult.err (TxError.AccountLocked 2)
    ∧ (processTransaction
        (processAll Engine.empty
          [mkTx TxType.Deposit 1 1 (some 400), mkTx TxType.Deposit 2 2 (some 100),
           mkTx TxType.Dispute 2 2 none, mkTx TxType.Chargeback 2 2 none])
        (mkTx TxType.Dispute 2 1 none)).1
      ≠ TxResult.err (TxError.AlreadyDisputed 1) := by
  refine ⟨?_, ?_, ?_⟩ <;>
    norm_num [processAll, processTransaction, processDeposit, processWithdrawal,
      processDispute, processResolve, processChargeback, Engine.entryOrInsert,
      Engine.empty, upd, mkTx, Account.fresh] <;>
    decide

/-- Claim C9, amended: provided the referencing client's account exists,
is unlocked, and carries its own key as client id, a Dispute / Resolve /
Chargeback naming a stored record of a different client fails (Dispute
with `AlreadyDisputed`, Resolve and Chargeback with `NotUnderDispute`)
and leaves the whole ledger state unchanged: one client can never move or
lock another client's funds through the dispute family. -/
theorem c9_cross_client_rejected (s : Engine) (t : Transaction) (a : Account)
    (d : Transaction)
    (hacc : s.accounts t.client = some a) (hl : a.locked = false)
    (hwf : a.client = t.client) (hrec : s.transactions t.tx = some d)
    (hne : d.client ≠ t.client) :
    (t.t_type = TxType.Dispute →
      processTransaction s t = (TxResult.err (TxError.AlreadyDisputed t.tx), s))
    ∧ (t.t_type = TxType.Resolve →
      processTransaction s t = (TxResult.err (TxError.NotUnderDispute t.tx), s))
    ∧ (t.t_type = TxType.Chargeback →
      processTransaction s t = (TxResult.err (TxError.NotUnderDispute t.tx), s)) := by
  have hnea : d.client ≠ a.client := by
    rw [hwf]
    exact hne
  refine ⟨fun hty => ?_, fun hty => ?_, fun hty => ?_⟩ <;>
    (unfold processTransaction
     rw [entryOrInsert_of_some s t.client a hacc]
     simp only [hl, hty, Bool.false_eq_true, if_false])
  · unfold processDispute
    simp [hacc, hrec, hnea]
  · unfold processResolve
    simp [hacc, hrec, hnea]
  · unfold processChargeback
    simp [hacc, hrec, hne]

/-- A concrete ledger where client 2 is unlocked and tx 1 is client 1's
deposit, for the C9 witness. -/
def crossClientLedger : Engine :=
  { accounts := fun k =>
      if k = 2 then some { client := 2, available := 0, held := 0, total := 0, locked := false }
      else none,
    transactions := fun x =>
      if x = 1 then
        some { t_type := TxType.Deposit, client := 1, tx := 1, amount := some 4,
               disputed := false }
      else none }

/-- Witness for `c9_cross_client_rejected` at a concrete input. -/
theorem c9_cross_client_rejected_witness :
    crossClientLedger.transactions 1
      = some { t_type := TxType.Deposit, client := 1, tx := 1, amount := some 4,
               disputed := false }
    ∧ processTransaction crossClientLedger (mkTx TxType.Dispute 2 1 none)
      = (TxResult.err (TxError.AlreadyDisputed 1), crossClientLedger) :=
  ⟨rfl,
    (c9_cross_client_rejected crossClientLedger (mkTx TxType.Dispute 2 1 none)
      { client := 2, available := 0, held := 0, total := 0, locked := false }
      { t_type := TxType.Deposit, client := 1, tx := 1, amount := some 4, disputed := false }
      rfl rfl rfl rfl (by decide)).1 rfl⟩

/-! ## Claim C10 -/

/-- Claim C10: Dispute performs no available-funds check.  For every
amount `v`, Deposit(v), Withdrawal(v), then Dispute of the deposit's tx
id: the Dispute succeeds and leaves client 1 with `available = -v`,
`held = v` and `total = 0` (consistent with `total = available + held`). -/
theorem c10_dispute_can_overdraw (v : ℚ) :
    (processTransaction
        (processAll Engine.empty
          [mkTx TxType.Deposit 1 1 (some v), mkTx TxType.Withdrawal 1 2 (some v)])
        (mkTx TxType.Dispute 1 1 none)).1 = TxResult.ok
    ∧ (processAll Engine.empty
        [mkTx TxType.Deposit 1 1 (some v), mkTx TxType.Withdrawal 1 2 (some v),
         mkTx TxType.Dispute 1 1 none]).accounts 1
      = some { client := 1, available := -v, held := v, total := 0, locked := false } := by
  constructor <;>
    simp [processAll, processTransaction, processDeposit, processWithdrawal,
      processDispute, Engine.entryOrInsert, Engine.empty, upd, mkTx, Account.fresh]

end TxEngine
